import Mathlib

/-!
Verification of a small warp-based question service (`src/main.rs`).

The development shallowly embeds the data model (`QuestionId`, `Question`,
`Pagination`, the `Error` enum), the in-memory `Store` (a `HashMap` from
`QuestionId` to `Question`, modelled as an association list with distinct
keys), the two handlers `get_questions` and `add_question`, the pagination
parser `extract_pagination`, and the boundary error translator
`return_error`, and proves the specification claims about them.
-/

/-- `QuestionId(String)`: an opaque string-wrapped identifier
(`struct QuestionId(String)` in `main.rs`). -/
structure QuestionId where
  val : String
deriving DecidableEq

/-- `struct Question { id, title, content, tags }` from `main.rs`.
`tags: Option<Vec<String>>` becomes `Option (List String)`. -/
structure Question where
  id : QuestionId
  title : String
  content : String
  tags : Option (List String)
deriving DecidableEq

/-- The kind carried by `std::num::ParseIntError`, as produced by
`str::parse::<usize>`: empty input, a non-digit character, or positive
overflow past `usize::MAX`. -/
inductive ParseIntErrorKind where
  | empty
  | invalidDigit
  | posOverflow
deriving DecidableEq

/-- `enum Error { ParseError(std::num::ParseIntError), MissingParameters }`
from `main.rs`. -/
inductive Error where
  | parseError (e : ParseIntErrorKind)
  | missingParameters
deriving DecidableEq

/-- `struct Pagination { start: usize, end: usize }` from `main.rs`;
`usize` values are represented as `Nat` (parsing already rejects anything
at or above `2^64`). -/
structure Pagination where
  start : Nat
  stop : Nat
deriving DecidableEq

/-- `usize::MAX` on the 64-bit target. -/
def USIZE_MAX : Nat := 2 ^ 64 - 1

/-- The digit-accumulation loop of Rust's `from_str_radix` at radix 10 for an
unsigned type: before each digit the accumulator is multiplied by 10 with a
`checked_mul` (overflow reported before the digit is even examined), then the
character must be an ASCII digit, then the digit is added with a
`checked_add`. -/
def parseDigitsUsize : List Char → Nat → Except ParseIntErrorKind Nat
  | [], acc => .ok acc
  | c :: cs, acc =>
    if acc * 10 > USIZE_MAX then .error .posOverflow
    else if c.isDigit then
      if acc * 10 + (c.toNat - '0'.toNat) > USIZE_MAX then .error .posOverflow
      else parseDigitsUsize cs (acc * 10 + (c.toNat - '0'.toNat))
    else .error .invalidDigit

/-- `str::parse::<usize>` (i.e. `usize::from_str_radix(s, 10)`): an empty
string is `Empty`; a lone `+` is `InvalidDigit`; a leading `+` is stripped;
any other leading character (including `-`, which is rejected for unsigned
types) goes through the digit loop. -/
def parseUsize (s : String) : Except ParseIntErrorKind Nat :=
  match s.data with
  | [] => .error .empty
  | ['+'] => .error .invalidDigit
  | '+' :: rest => parseDigitsUsize rest 0
  | l => parseDigitsUsize l 0

instance {ε α : Type} [DecidableEq ε] [DecidableEq α] : DecidableEq (Except ε α) :=
  fun a b =>
    match a, b with
    | .ok x, .ok y => if h : x = y then .isTrue (by rw [h]) else .isFalse (by simp [h])
    | .error x, .error y => if h : x = y then .isTrue (by rw [h]) else .isFalse (by simp [h])
    | .ok _, .error _ => .isFalse (by simp)
    | .error _, .ok _ => .isFalse (by simp)

/-- Query parameters: the `HashMap<String, String>` warp extracts from the
query string, modelled as an association list. -/
abbrev QueryParams := List (String × String)

/-- `HashMap::get` (and, via `isSome`, `HashMap::contains_key`) on an
association-list model: the value at the first entry whose key matches. -/
def mapGet {α β : Type} [DecidableEq α] : List (α × β) → α → Option β
  | [], _ => none
  | p :: ps, k => if p.1 = k then some p.2 else mapGet ps k

/-- `extract_pagination` from `main.rs`: if both `"start"` and `"end"` keys
are present, parse each value as `usize` (start first, each failure mapped to
`Error::ParseError` and propagated by `?`) and build the `Pagination`;
otherwise return `Error::MissingParameters`. -/
def extract_pagination (params : QueryParams) : Except Error Pagination :=
  match mapGet params "start", mapGet params "end" with
  | some s, some e =>
    match parseUsize s with
    | .error err => .error (.parseError err)
    | .ok sv =>
      match parseUsize e with
      | .error err => .error (.parseError err)
      | .ok ev => .ok ⟨sv, ev⟩
  | _, _ => .error .missingParameters

/-- The `Store`'s `HashMap<QuestionId, Question>`, modelled as an
association list of entries; a reachable `HashMap` never holds two entries
with the same key (see `NodupKeys`). -/
abbrev Store := List (QuestionId × Question)

/-- A `HashMap` invariant: all keys of the mapping are distinct. -/
def NodupKeys (s : Store) : Prop :=
  s.Pairwise (fun a b => a.1 ≠ b.1)

instance (s : Store) : Decidable (NodupKeys s) :=
  inferInstanceAs (Decidable (List.Pairwise _ s))

/-- `HashMap::insert(k, v)`: if the key is already present, the existing
entry's value is replaced (the key keeps its place); otherwise a fresh entry
is added. -/
def mapInsert (k : QuestionId) (v : Question) (m : Store) : Store :=
  if (mapGet m k).isSome then
    m.map (fun p => if p.1 = k then (k, v) else p)
  else
    m ++ [(k, v)]

/-- `store.questions.read().await.values().cloned().collect::<Vec<Question>>()`:
the materialized snapshot of all stored questions (`Store.list_all` in the
spec), in the mapping's implementation-defined iteration order. -/
def list_all (s : Store) : List Question :=
  s.map Prod.snd

/-- The status/body pair of `warp::reply::with_status("Question added", StatusCode::OK)`. -/
def QUESTION_ADDED : String × Nat := ("Question added", 200)

/-- `add_question` from `main.rs`: unconditionally
`store.questions.write().await.insert(question.id.clone(), question)`, then
reply `200 "Question added"`. Returns the updated store paired with the
reply. -/
def add_question (store : Store) (question : Question) : Store × (String × Nat) :=
  (mapInsert question.id question store, QUESTION_ADDED)

/-- Rust slice indexing `&xs[start..stop]` on a `Vec`: yields the
sub-sequence from `start` (inclusive) to `stop` (exclusive) when
`start <= stop && stop <= xs.len()`, and otherwise panics — the panic is
modelled as `none`. -/
def sliceIndex (xs : List Question) (start stop : Nat) : Option (List Question) :=
  if start ≤ stop ∧ stop ≤ xs.length then some ((xs.take stop).drop start) else none

/-- Outcome of `get_questions`: a JSON reply with an HTTP status and the
replied list of questions, a rejection with a structured `Error` (the `?` on
`extract_pagination`), or a panic at the unchecked slice. -/
inductive GetResult where
  | reply (status : Nat) (body : List Question)
  | rejected (e : Error)
  | sliceFault
deriving DecidableEq

/-- `get_questions` from `main.rs`: with a non-empty parameter map, parse
pagination (propagating its error as a rejection), materialize the snapshot
under the read lock, and slice it with raw indices (`&res[start..end]`,
which faults out of range); with an empty map, reply with the full
snapshot. `warp::reply::json` carries HTTP 200. -/
def get_questions (params : QueryParams) (store : Store) : GetResult :=
  if ¬ params.isEmpty then
    match extract_pagination params with
    | .error e => .rejected e
    | .ok pagination =>
      match sliceIndex (list_all store) pagination.start pagination.stop with
      | some res => .reply 200 res
      | none => .sliceFault
  else
    .reply 200 (list_all store)

/-- `Display for Error` from `main.rs` (the `ParseIntError` detail rendered
per `std::num`). -/
def Error.display : Error → String
  | .parseError .empty => "Cannot parse parameter: cannot parse integer from empty string"
  | .parseError .invalidDigit => "Cannot parse parameter: invalid digit found in string"
  | .parseError .posOverflow => "Cannot parse parameter: number too large to fit in target type"
  | .missingParameters => "Missing parameter"

/-- A `warp::Rejection` as seen by `return_error`. The custom `Error` enum is
one possible payload; `CorsForbidden` another. A `POST /questions` body that
fails to deserialize is rejected by `warp::body::json()` with warp's
`BodyDeserializeError` — a type distinct from the custom `Error` enum (which
only `extract_pagination` ever constructs), so `r.find::<Error>()` does not
see it. `routeNotFound` stands for any remaining rejection. -/
inductive Rejection where
  | appError (e : Error)
  | corsForbidden (msg : String)
  | bodyDeserializeError (msg : String)
  | routeNotFound
deriving DecidableEq

/-- `return_error` from `main.rs`: a found `Error` maps to
`416 RANGE_NOT_SATISFIABLE` with its display text; a found `CorsForbidden`
maps to `403 FORBIDDEN`; everything else maps to `404 "Route not found"`. -/
def return_error (r : Rejection) : String × Nat :=
  match r with
  | .appError e => (e.display, 416)
  | .corsForbidden msg => (msg, 403)
  | _ => ("Route not found", 404)

/-- The fragment of the JSON data model needed for `Question` values:
strings, arrays, objects (field lists), and `null`. -/
inductive Json where
  | null
  | str (s : String)
  | arr (xs : List Json)
  | obj (fields : List (String × Json))

/-- `serde_json` serialization of a `Question` under
`#[derive(Serialize)]`: an object with the fields in declaration order; the
newtype `QuestionId(String)` serializes as its inner string; `tags: None`
serializes as `null`, `Some(ts)` as an array of strings. -/
def serializeQuestion (q : Question) : Json :=
  .obj [("id", .str q.id.val),
        ("title", .str q.title),
        ("content", .str q.content),
        ("tags", match q.tags with
                 | none => .null
                 | some ts => .arr (ts.map .str))]

/-- Decode a JSON value as `Vec<String>`: every element must be a string. -/
def decodeStringList : List Json → Option (List String)
  | [] => some []
  | .str s :: rest => (decodeStringList rest).map (fun l => s :: l)
  | _ => none

/-- Decode the `tags` field of a `Question`: for an `Option` field, serde
treats a missing field and an explicit `null` both as `None`; an array of
strings becomes `Some`; anything else is a deserialization error. -/
def decodeTags : Option Json → Option (Option (List String))
  | none => some none
  | some .null => some none
  | some (.arr xs) => (decodeStringList xs).map some
  | some _ => none

/-- `serde_json` deserialization of a `Question` under
`#[derive(Deserialize)]`: the value must be an object; `id`, `title` and
`content` must be present string fields (`id` through the `QuestionId`
newtype); `tags` follows `decodeTags`. Fields are found by name (serde
accepts any field order; a duplicate field is a serde error, while this
lookup model takes the first occurrence — serialized objects never have
duplicates). Failure is `none`. -/
def deserializeQuestion (j : Json) : Option Question :=
  match j with
  | .obj fields =>
    match mapGet fields "id", mapGet fields "title", mapGet fields "content" with
    | some (.str i), some (.str t), some (.str c) =>
      (decodeTags (mapGet fields "tags")).map (fun tg => ⟨⟨i⟩, t, c, tg⟩)
    | _, _, _ => none
  | _ => none

/-- The entries of the store whose key is `k`: the mapping "contains exactly
one entry at id `k`" states that this filter is a singleton. -/
def keyFilter (m : Store) (k : QuestionId) : Store :=
  m.filter (fun p => decide (p.1 = k))

/-- A sample store of five questions, used to instantiate theorems with
hypotheses. -/
def sampleStore : Store :=
  [(⟨"1"⟩, ⟨⟨"1"⟩, "t1", "c1", none⟩),
   (⟨"2"⟩, ⟨⟨"2"⟩, "t2", "c2", some ["faq"]⟩),
   (⟨"3"⟩, ⟨⟨"3"⟩, "t3", "c3", none⟩),
   (⟨"4"⟩, ⟨⟨"4"⟩, "t4", "c4", none⟩),
   (⟨"5"⟩, ⟨⟨"5"⟩, "t5", "c5", some ["general"]⟩)]

theorem isEmpty_false_of_ne_nil {params : QueryParams} (h : params ≠ []) :
    params.isEmpty = false := by
  cases params with
  | nil => exact absurd rfl h
  | cons p ps => rfl

/-- Claim C4: for every query-parameter mapping in which the key `start` is
absent or the key `end` is absent (or both), `extract_pagination` returns
the `MissingParameters` error. -/
theorem c4_absent_key_missing_parameters (params : QueryParams)
    (h : mapGet params "start" = none ∨ mapGet params "end" = none) :
    extract_pagination params = .error .missingParameters := by
  cases hs : mapGet params "start" with
  | none => simp [extract_pagination, hs]
  | some s =>
    cases he : mapGet params "end" with
    | none => simp [extract_pagination, hs, he]
    | some e =>
      rw [hs, he] at h
      rcases h with h | h <;> exact absurd h (by simp)

theorem c4_witness :
    (mapGet [("start", "0")] "start" = none ∨ mapGet [("start", "0")] "end" = none) ∧
      extract_pagination [("start", "0")] = .error .missingParameters :=
  ⟨Or.inr (by decide), c4_absent_key_missing_parameters [("start", "0")] (Or.inr (by decide))⟩

/-- Claim C5: for every query-parameter mapping containing both `start` and
`end` keys where at least one value does not parse as a non-negative integer,
`extract_pagination` returns a `ParseError` carrying the underlying
integer-parse failure detail (the failure of `start` when it fails, else the
failure of `end`). -/
theorem c5_parse_failure_parse_error (params : QueryParams) (s e : String)
    (k : ParseIntErrorKind)
    (hs : mapGet params "start" = some s) (he : mapGet params "end" = some e)
    (hk : parseUsize s = .error k ∨
      (∃ n, parseUsize s = .ok n ∧ parseUsize e = .error k)) :
    extract_pagination params = .error (.parseError k) := by
  rcases hk with h | ⟨n, h1, h2⟩
  · simp [extract_pagination, hs, he, h]
  · simp [extract_pagination, hs, he, h1, h2]

theorem c5_witness :
    mapGet [("start", "a"), ("end", "5")] "start" = some "a" ∧
      mapGet [("start", "a"), ("end", "5")] "end" = some "5" ∧
      parseUsize "a" = .error .invalidDigit ∧
      extract_pagination [("start", "a"), ("end", "5")] =
        .error (.parseError .invalidDigit) :=
  ⟨by decide, by decide, by decide,
    c5_parse_failure_parse_error [("start", "a"), ("end", "5")] "a" "5" .invalidDigit
      (by decide) (by decide) (Or.inl (by decide))⟩

/-- Claim C6: for every query-parameter mapping containing `start` and `end`
keys whose values both parse as non-negative integers, `extract_pagination`
succeeds with exactly the parsed values — with no requirement that
`start <= end` and no check against any collection size. -/
theorem c6_success_exact_values (params : QueryParams) (s e : String)
    (sv ev : Nat)
    (hs : mapGet params "start" = some s) (he : mapGet params "end" = some e)
    (hps : parseUsize s = .ok sv) (hpe : parseUsize e = .ok ev) :
    extract_pagination params = .ok ⟨sv, ev⟩ := by
  simp [extract_pagination, hs, he, hps, hpe]

theorem c6_witness :
    mapGet [("start", "3"), ("end", "1")] "start" = some "3" ∧
      mapGet [("start", "3"), ("end", "1")] "end" = some "1" ∧
      parseUsize "3" = .ok 3 ∧ parseUsize "1" = .ok 1 ∧
      extract_pagination [("start", "3"), ("end", "1")] = .ok ⟨3, 1⟩ :=
  ⟨by decide, by decide, by decide, by decide,
    c6_success_exact_values [("start", "3"), ("end", "1")] "3" "1" 3 1
      (by decide) (by decide) (by decide) (by decide)⟩

/-- Claim C10: `extract_pagination` depends only on the presence and values
of the `start` and `end` keys: any two mappings agreeing on those two lookups
get the same result, so extra unrelated keys neither cause an error nor
change the parsed `Pagination`. -/
theorem c10_only_start_end_matter (p q : QueryParams)
    (hs : mapGet p "start" = mapGet q "start")
    (he : mapGet p "end" = mapGet q "end") :
    extract_pagination p = extract_pagination q := by
  unfold extract_pagination
  rw [hs, he]

theorem c10_witness :
    mapGet [("start", "1"), ("end", "3")] "start" =
        mapGet [("end", "3"), ("extra", "zzz"), ("start", "1")] "start" ∧
      mapGet [("start", "1"), ("end", "3")] "end" =
        mapGet [("end", "3"), ("extra", "zzz"), ("start", "1")] "end" ∧
      extract_pagination [("start", "1"), ("end", "3")] =
        extract_pagination [("end", "3"), ("extra", "zzz"), ("start", "1")] :=
  ⟨by decide, by decide,
    c10_only_start_end_matter [("start", "1"), ("end", "3")]
      [("end", "3"), ("extra", "zzz"), ("start", "1")] (by decide) (by decide)⟩

/-- Claim C8: for every store, the list handler on an empty query-parameter
mapping replies HTTP 200 with every stored question (the full `list_all`
snapshot, no pagination parsing); in particular an empty store yields an
empty array. -/
theorem c8_empty_params_full_list (store : Store) :
    get_questions [] store = .reply 200 (list_all store) ∧
      get_questions [] ([] : Store) = .reply 200 [] := by
  exact ⟨rfl, rfl⟩

/-- Claim C2: for every non-empty query-parameter mapping whose parsed
pagination has `end` greater than the snapshot length or `start` greater
than `end`, the list handler fails at the slicing step (the out-of-range
slice fault), not with a structured error value. -/
theorem c2_out_of_range_slice_fault (params : QueryParams) (store : Store)
    (pg : Pagination) (hne : params ≠ [])
    (hp : extract_pagination params = .ok pg)
    (hbad : (list_all store).length < pg.stop ∨ pg.stop < pg.start) :
    get_questions params store = .sliceFault := by
  have hie := isEmpty_false_of_ne_nil hne
  have hsl : sliceIndex (list_all store) pg.start pg.stop = none := by
    unfold sliceIndex
    rw [if_neg (by omega)]
  simp [get_questions, hie, hp, hsl]

theorem c2_witness :
    ([("start", "2"), ("end", "5")] : QueryParams) ≠ [] ∧
      extract_pagination [("start", "2"), ("end", "5")] = .ok ⟨2, 5⟩ ∧
      (list_all ([] : Store)).length < 5 ∧
      get_questions [("start", "2"), ("end", "5")] ([] : Store) = .sliceFault :=
  ⟨by decide, by decide, by decide,
    c2_out_of_range_slice_fault [("start", "2"), ("end", "5")] [] ⟨2, 5⟩
      (by decide) (by decide) (Or.inl (by decide))⟩

/-- Claim C7: for every non-empty query-parameter mapping whose pagination
parses with `start <= end` and `end` within the snapshot length, the list
handler replies HTTP 200 with exactly the sub-sequence of the snapshot from
index `start` (inclusive) to `end` (exclusive). -/
theorem c7_in_range_returns_slice (params : QueryParams) (store : Store)
    (pg : Pagination) (hne : params ≠ [])
    (hp : extract_pagination params = .ok pg)
    (h1 : pg.start ≤ pg.stop) (h2 : pg.stop ≤ (list_all store).length) :
    get_questions params store =
      .reply 200 (((list_all store).take pg.stop).drop pg.start) := by
  have hie := isEmpty_false_of_ne_nil hne
  have hsl : sliceIndex (list_all store) pg.start pg.stop =
      some (((list_all store).take pg.stop).drop pg.start) := by
    unfold sliceIndex
    rw [if_pos ⟨h1, h2⟩]
  simp [get_questions, hie, hp, hsl]

theorem c7_witness :
    ([("start", "1"), ("end", "3")] : QueryParams) ≠ [] ∧
      extract_pagination [("start", "1"), ("end", "3")] = .ok ⟨1, 3⟩ ∧
      (1 : Nat) ≤ 3 ∧ 3 ≤ (list_all sampleStore).length ∧
      get_questions [("start", "1"), ("end", "3")] sampleStore =
        .reply 200 (((list_all sampleStore).take 3).drop 1) :=
  ⟨by decide, by decide, by decide, by decide,
    c7_in_range_returns_slice [("start", "1"), ("end", "3")] sampleStore ⟨1, 3⟩
      (by decide) (by decide) (by decide) (by decide)⟩

theorem mapGet_eq_none_of_forall_ne {m : Store} {k : QuestionId}
    (h : ∀ p ∈ m, p.1 ≠ k) : mapGet m k = none := by
  induction m with
  | nil => rfl
  | cons p ps ih =>
    rw [mapGet, if_neg (h p (List.mem_cons_self p ps))]
    exact ih (fun q hq => h q (List.mem_cons_of_mem p hq))

theorem forall_ne_of_mapGet_eq_none {m : Store} {k : QuestionId}
    (h : mapGet m k = none) : ∀ p ∈ m, p.1 ≠ k := by
  induction m with
  | nil => simp
  | cons p ps ih =>
    by_cases hp : p.1 = k
    · rw [mapGet, if_pos hp] at h
      exact absurd h (by simp)
    · rw [mapGet, if_neg hp] at h
      intro q hq
      rcases List.mem_cons.mp hq with rfl | hq'
      · exact hp
      · exact ih h q hq'

theorem keyFilter_eq_nil {m : Store} {k : QuestionId} (h : mapGet m k = none) :
    keyFilter m k = [] := by
  have hne := forall_ne_of_mapGet_eq_none h
  induction m with
  | nil => rfl
  | cons p ps ih =>
    rw [keyFilter, List.filter_cons_of_neg (by simp [hne p (List.mem_cons_self p ps)])]
    exact ih (by rw [mapGet_eq_none_of_forall_ne
        (fun q hq => hne q (List.mem_cons_of_mem p hq))])
      (fun q hq => hne q (List.mem_cons_of_mem p hq))

theorem keyFilter_replace (m : Store) (k : QuestionId) (v : Question) :
    keyFilter (m.map (fun p => if p.1 = k then (k, v) else p)) k =
      (keyFilter m k).map (fun _ => (k, v)) := by
  induction m with
  | nil => rfl
  | cons p ps ih =>
    by_cases hp : p.1 = k
    · rw [List.map_cons, if_pos hp, keyFilter, List.filter_cons_of_pos (by simp),
        keyFilter, List.filter_cons_of_pos (by simp [hp]), List.map_cons]
      exact congrArg _ ih
    · rw [List.map_cons, if_neg hp, keyFilter, List.filter_cons_of_neg (by simp [hp]),
        keyFilter, List.filter_cons_of_neg (by simp [hp])]
      exact ih

theorem keyFilter_of_mapGet_some {m : Store} {k : QuestionId} {w : Question}
    (h : NodupKeys m) (hg : mapGet m k = some w) :
    keyFilter m k = [(k, w)] := by
  induction m with
  | nil => exact absurd hg (by rw [mapGet]; simp)
  | cons p ps ih =>
    rcases List.pairwise_cons.mp h with ⟨hall, hps⟩
    by_cases hp : p.1 = k
    · rw [mapGet, if_pos hp] at hg
      have hnone : mapGet ps k = none :=
        mapGet_eq_none_of_forall_ne (fun q hq => by rw [← hp]; exact (hall q hq).symm)
      rw [keyFilter, List.filter_cons_of_pos (by simp [hp])]
      have hnil : keyFilter ps k = [] := keyFilter_eq_nil hnone
      rw [keyFilter] at hnil
      have hw : p.2 = w := by injection hg
      rw [hnil, ← hp, ← hw]
    · rw [mapGet, if_neg hp] at hg
      rw [keyFilter, List.filter_cons_of_neg (by simp [hp])]
      exact ih hps hg

theorem mapInsert_keyFilter (m : Store) (k : QuestionId) (v : Question)
    (h : NodupKeys m) : keyFilter (mapInsert k v m) k = [(k, v)] := by
  unfold mapInsert
  cases hg : mapGet m k with
  | none =>
    rw [if_neg (by simp)]
    have hnil : keyFilter m k = [] := keyFilter_eq_nil hg
    rw [keyFilter, List.filter_append]
    rw [keyFilter] at hnil
    rw [hnil]
    simp
  | some w =>
    rw [if_pos (by simp)]
    rw [keyFilter_replace, keyFilter_of_mapGet_some h hg]
    rfl

theorem mapInsert_nodupKeys (m : Store) (k : QuestionId) (v : Question)
    (h : NodupKeys m) : NodupKeys (mapInsert k v m) := by
  unfold mapInsert
  cases hg : mapGet m k with
  | some w =>
    simp only [Option.isSome_some, if_true]
    rw [NodupKeys, List.pairwise_map]
    refine h.imp_of_mem (fun ha hb hab => ?_)
    have hf : ∀ p : QuestionId × Question,
        ((if p.1 = k then (k, v) else p) : QuestionId × Question).1 = p.1 := by
      intro p
      by_cases hp : p.1 = k
      · rw [if_pos hp, hp]
      · rw [if_neg hp]
    rw [hf, hf]
    exact hab
  | none =>
    simp only [Option.isSome_none, Bool.false_eq_true, if_false]
    rw [NodupKeys, List.pairwise_append]
    refine ⟨h, List.pairwise_singleton _ _, fun a ha b hb => ?_⟩
    rw [List.mem_singleton.mp hb]
    exact forall_ne_of_mapGet_eq_none hg a ha

/-- Claim C1: for every question `v` and store with the `HashMap` invariant
(distinct keys), inserting `v` via `add_question` leaves exactly one entry at
`v.id`, equal to `v` (and `v` appears in the listing); inserting a second
question `w` with the same id afterwards again leaves exactly one entry at
that id, holding `w` (second value wins). -/
theorem c1_insert_exactly_one (s : Store) (v w : Question) (h : NodupKeys s)
    (hw : w.id = v.id) :
    keyFilter (add_question s v).1 v.id = [(v.id, v)] ∧
      v ∈ list_all (add_question s v).1 ∧
      keyFilter (add_question (add_question s v).1 w).1 v.id = [(v.id, w)] ∧
      w ∈ list_all (add_question (add_question s v).1 w).1 := by
  have h1 : keyFilter (add_question s v).1 v.id = [(v.id, v)] :=
    mapInsert_keyFilter s v.id v h
  have hn1 : NodupKeys (add_question s v).1 := mapInsert_nodupKeys s v.id v h
  have h2 : keyFilter (add_question (add_question s v).1 w).1 v.id = [(v.id, w)] := by
    rw [← hw]
    exact mapInsert_keyFilter (add_question s v).1 w.id w hn1
  have hmem1 : (v.id, v) ∈ (add_question s v).1 :=
    List.mem_of_mem_filter (by rw [keyFilter] at h1; rw [h1]; exact List.mem_singleton_self _)
  have hmem2 : (v.id, w) ∈ (add_question (add_question s v).1 w).1 :=
    List.mem_of_mem_filter (by rw [keyFilter] at h2; rw [h2]; exact List.mem_singleton_self _)
  exact ⟨h1, List.mem_map_of_mem Prod.snd hmem1, h2, List.mem_map_of_mem Prod.snd hmem2⟩

theorem c1_witness :
    NodupKeys ([] : Store) ∧
      (Question.mk ⟨"1"⟩ "second title" "second content" (some ["x"])).id =
        (Question.mk ⟨"1"⟩ "first title" "first content" none).id ∧
      (keyFilter (add_question [] ⟨⟨"1"⟩, "first title", "first content", none⟩).1 ⟨"1"⟩ =
          [(⟨"1"⟩, ⟨⟨"1"⟩, "first title", "first content", none⟩)] ∧
        (⟨⟨"1"⟩, "first title", "first content", none⟩ : Question) ∈
          list_all (add_question [] ⟨⟨"1"⟩, "first title", "first content", none⟩).1 ∧
        keyFilter (add_question (add_question [] ⟨⟨"1"⟩, "first title", "first content", none⟩).1
            ⟨⟨"1"⟩, "second title", "second content", some ["x"]⟩).1 ⟨"1"⟩ =
          [(⟨"1"⟩, ⟨⟨"1"⟩, "second title", "second content", some ["x"]⟩)] ∧
        (⟨⟨"1"⟩, "second title", "second content", some ["x"]⟩ : Question) ∈
          list_all (add_question (add_question []
            ⟨⟨"1"⟩, "first title", "first content", none⟩).1
            ⟨⟨"1"⟩, "second title", "second content", some ["x"]⟩).1) :=
  ⟨by decide, by decide,
    c1_insert_exactly_one [] ⟨⟨"1"⟩, "first title", "first content", none⟩
      ⟨⟨"1"⟩, "second title", "second content", some ["x"]⟩ (by decide) (by decide)⟩

/-- Counterexample to claim C3: a rejection carrying warp's
`BodyDeserializeError` — what a `POST /questions` request with an
undeserializable JSON body produces — is translated by `return_error` to
HTTP 404, not to the HTTP 416 the claim states. -/
theorem c3_counterexample :
    (return_error (.bodyDeserializeError "invalid request body")).2 = 404 ∧
      (return_error (.bodyDeserializeError "invalid request body")).2 ≠ 416 := by
  decide

/-- Claim C3 amended: for every `POST /questions` request whose JSON body
fails to deserialize into a `Question`, the rejection is warp's
`BodyDeserializeError`, which is not the custom `Error` enum, so the boundary
error translator falls through to its catch-all and produces HTTP 404 with
body `Route not found` (only `ParseError`/`MissingParameters` rejections map
to 416). -/
theorem c3_body_deserialize_maps_to_404 (msg : String) :
    return_error (.bodyDeserializeError msg) = ("Route not found", 404) ∧
      (∀ e : Error, return_error (.appError e) = (e.display, 416)) :=
  ⟨rfl, fun _ => rfl⟩

theorem decodeStringList_map_str (l : List String) :
    decodeStringList (l.map .str) = some l := by
  induction l with
  | nil => rfl
  | cons a l ih => simp [decodeStringList, ih]

/-- Claim C9: serializing any `Question` to JSON and deserializing the
result yields an equal `Question` (id, title, content and tags all
preserved), and a JSON object with the `tags` field omitted deserializes to
the absent (`none`) tags representation. -/
theorem c9_serialize_roundtrip (q : Question) (i t c : String) :
    deserializeQuestion (serializeQuestion q) = some q ∧
      deserializeQuestion (.obj [("id", .str i), ("title", .str t),
        ("content", .str c)]) = some ⟨⟨i⟩, t, c, none⟩ := by
  constructor
  · obtain ⟨⟨qi⟩, qt, qc, qtg⟩ := q
    cases qtg with
    | none => rfl
    | some ts =>
      simp [serializeQuestion, deserializeQuestion, mapGet, decodeTags,
        decodeStringList_map_str]
  · rfl
